import Mathlib

set_option autoImplicit false

/-!
Shallow embedding of `lightning_app/components/python/tracer.py`
(`TracerPythonScript`) and `tests/tests_pytorch/helpers/runif.py` (`RunIf`).

Python dictionaries are modelled as association lists (`Dict α`), read by
first match and updated in place at the first matching key, which matches
Python dict semantics whenever the list has no duplicate keys.  Python
values that can flow through `run`'s keyword arguments are modelled by
`PyVal`, with `PyVal.payload` standing for the `Payload` envelope class.
The external `Tracer.trace` engine is a parameter: a function from script
path, script args and initial globals to either a result mapping or an
exception.
-/

namespace PL

/-- Association-list model of a Python `dict` with values in `α`. -/
abbrev Dict (α : Type) := List (String × α)

/-- `d[k]` lookup: first entry whose key equals `k`. -/
def dget {α : Type} : Dict α → String → Option α
  | [], _ => none
  | (k', v) :: rest, k => if k' = k then some v else dget rest k

/-- `d[k] = v` store: replace the first entry with key `k`, or append. -/
def dset {α : Type} : Dict α → String → α → Dict α
  | [], k, v => [(k, v)]
  | (k', v') :: rest, k, v =>
    if k' = k then (k', v) :: rest else (k', v') :: dset rest k v

/-- `d.update(e)`: fold `dset` over the entries of `e`, as Python's
`dict.update` writes each key of the argument into the receiver. -/
def dupdate {α : Type} (d e : Dict α) : Dict α :=
  e.foldl (fun acc kv => dset acc kv.1 kv.2) d

/-- The keys of a dict, in order. -/
def dkeys {α : Type} (d : Dict α) : List String :=
  d.map Prod.fst

@[simp] theorem dget_nil {α : Type} (k : String) : dget ([] : Dict α) k = none := rfl

theorem dget_dset_self {α : Type} (d : Dict α) (k : String) (v : α) :
    dget (dset d k v) k = some v := by
  induction d with
  | nil => simp [dset, dget]
  | cons hd tl ih =>
    obtain ⟨k', v'⟩ := hd
    by_cases h : k' = k
    · simp [dset, dget, h]
    · simp [dset, dget, h, ih]

theorem dget_dset_ne {α : Type} (d : Dict α) (k k' : String) (v : α) (h : k' ≠ k) :
    dget (dset d k v) k' = dget d k' := by
  induction d with
  | nil => simp [dset, dget, Ne.symm h]
  | cons hd tl ih =>
    obtain ⟨k0, v0⟩ := hd
    by_cases h0 : k0 = k
    · subst h0
      simp [dset, dget, Ne.symm h]
    · simp [dset, dget, h0, ih]

theorem dget_dupdate_not_mem {α : Type} (d e : Dict α) (k : String)
    (h : k ∉ dkeys e) : dget (dupdate d e) k = dget d k := by
  induction e generalizing d with
  | nil => rfl
  | cons hd tl ih =>
    obtain ⟨k0, v0⟩ := hd
    simp only [dkeys, List.map_cons, List.mem_cons, not_or] at h
    have step : dupdate d ((k0, v0) :: tl) = dupdate (dset d k0 v0) tl := rfl
    rw [step, ih (dset d k0 v0) (by simpa [dkeys] using h.2),
      dget_dset_ne d k0 k v0 h.1]

theorem dget_dupdate_mem {α : Type} (d e : Dict α) (k : String) (v : α)
    (hnodup : (dkeys e).Nodup) (h : dget e k = some v) :
    dget (dupdate d e) k = some v := by
  induction e generalizing d with
  | nil => simp [dget] at h
  | cons hd tl ih =>
    obtain ⟨k0, v0⟩ := hd
    simp only [dkeys, List.map_cons, List.nodup_cons] at hnodup
    have step : dupdate d ((k0, v0) :: tl) = dupdate (dset d k0 v0) tl := rfl
    by_cases h0 : k0 = k
    · subst h0
      have hv : v0 = v := by simpa [dget] using h
      subst hv
      rw [step, dget_dupdate_not_mem (dset d k0 v0) tl k0
        (by simpa [dkeys] using hnodup.1), dget_dset_self]
    · simp only [dget, if_neg h0] at h
      rw [step]
      exact ih (dset d k0 v0) hnodup.2 h

theorem dget_eq_none_of_not_mem {α : Type} (d : Dict α) (k : String)
    (h : k ∉ dkeys d) : dget d k = none := by
  induction d with
  | nil => rfl
  | cons hd tl ih =>
    obtain ⟨k0, v0⟩ := hd
    simp only [dkeys, List.map_cons, List.mem_cons, not_or] at h
    simp [dget, Ne.symm h.1, ih (by simpa [dkeys] using h.2)]

theorem not_mem_of_dget_eq_none {α : Type} (d : Dict α) (k : String)
    (h : dget d k = none) : k ∉ dkeys d := by
  induction d with
  | nil => simp [dkeys]
  | cons hd tl ih =>
    obtain ⟨k0, v0⟩ := hd
    by_cases h0 : k0 = k
    · simp [dget, h0] at h
    · simp only [dget, if_neg h0] at h
      simp only [dkeys, List.map_cons, List.mem_cons, not_or]
      exact ⟨fun hh => h0 hh.symm, by simpa [dkeys] using ih h⟩

theorem dget_map_value {α β : Type} (d : Dict α) (f : α → β) (k : String) :
    dget (d.map (fun kv => (kv.1, f kv.2))) k = (dget d k).map f := by
  induction d with
  | nil => rfl
  | cons hd tl ih =>
    obtain ⟨k0, v0⟩ := hd
    by_cases h0 : k0 = k
    · simp [dget, h0]
    · simp [dget, h0, ih]

theorem dkeys_map_value {α β : Type} (d : Dict α) (f : α → β) :
    dkeys (d.map (fun kv => (kv.1, f kv.2))) = dkeys d := by
  induction d with
  | nil => rfl
  | cons hd tl ih => simp_all [dkeys]

/-- Model of the Python values that flow through the tracer component:
`None`, numbers, strings, and the `Payload` envelope around another value. -/
inductive PyVal : Type where
  | pyNone : PyVal
  | pyNat : Nat → PyVal
  | pyStr : String → PyVal
  | payload : PyVal → PyVal
  deriving DecidableEq, Repr

/-- `v.value if isinstance(v, Payload) else v` (tracer.py line 108). -/
def unwrapPayload : PyVal → PyVal
  | .payload v => v
  | v => v

theorem payload_ne_self (v : PyVal) : PyVal.payload v ≠ v := by
  induction v with
  | pyNone => intro h; cases h
  | pyNat n => intro h; cases h
  | pyStr s => intro h; cases h
  | payload u ih => intro h; exact ih (by injection h)

@[simp] theorem unwrapPayload_payload (v : PyVal) :
    unwrapPayload (PyVal.payload v) = v := rfl

/-!
Python `str.split` with an explicit separator keeps empty fields:
`"".split(" ") == ['']`, `"a  b".split(" ") == ['a', '', 'b']`.  We model it
on the character list, splitting at every character satisfying `p`.
-/

/-- Split a character list at every character satisfying `p`, keeping empty
fields (the semantics of Python `str.split(sep)` for a one-character `sep`
when `p` tests equality with that character). -/
def splitOnPred (p : Char → Bool) : List Char → List (List Char)
  | [] => [[]]
  | c :: cs =>
    let r := splitOnPred p cs
    if p c then [] :: r
    else
      match r with
      | [] => [[c]]
      | t :: ts => (c :: t) :: ts

theorem splitOnPred_ne_nil (p : Char → Bool) (l : List Char) :
    splitOnPred p l ≠ [] := by
  induction l with
  | nil => simp [splitOnPred]
  | cons c cs ih =>
    by_cases h : p c
    · simp [splitOnPred, h]
    · cases hr : splitOnPred p cs with
      | nil => exact absurd hr ih
      | cons t ts => simp [splitOnPred, h, hr]

/-- Python `s.split(sep)` for a single-character separator. -/
def pySplit (s : String) (sep : Char) : List String :=
  (splitOnPred (fun c => c == sep) s.data).map List.asString

theorem pySplit_ne_nil (s : String) (sep : Char) : pySplit s sep ≠ [] := by
  intro h
  exact splitOnPred_ne_nil (fun c => c == sep) s.data (by
    have := congrArg List.length h
    simpa [pySplit] using List.eq_nil_of_length_eq_zero (by simpa [pySplit] using this))

/-- Python `s.split()` with no separator: split on runs of whitespace and
drop empty fields.  This is the behaviour the spec sentence
"a single whitespace-delimited string, split into tokens" describes; it is
stated here only to compare the spec's words with the code's
`split(" ")`. -/
def specWhitespaceTokens (s : String) : List String :=
  ((splitOnPred Char.isWhitespace s.data).map List.asString).filter
    (fun t => t ≠ "")

/-!
The `TracerPythonScript` component (tracer.py).
-/

/-- Exceptions that the embedded fragment can raise. -/
inductive PyErr : Type where
  | fileNotFound : String → PyErr
  | keyError : String → PyErr
  | tracerError : PyErr
  deriving DecidableEq, Repr

/-- Instance state of `TracerPythonScript`: the attributes set by
`__init__`, with `attrs` holding the dynamically-created per-output
attributes (`setattr(self, name, ...)`). -/
structure TracerPythonScript : Type where
  script_path : String
  script_args : List String
  env : Option (Dict String)
  outputs : List String
  attrs : Dict PyVal
  deriving DecidableEq, Repr

/-- Process-wide mutable state touched by `run`: `os.environ`, the module
globals dict returned by `globals()`, and `sys.argv`. -/
structure ProcState : Type where
  environ : Dict String
  module_globals : Dict PyVal
  sys_argv : List String
  deriving DecidableEq, Repr

/-- The external `Tracer.trace` collaborator: given `script_path`,
`script_args` and `init_globals`, either returns the resulting global
namespace mapping or raises. -/
abbrev TraceEngine : Type :=
  String → List String → Dict PyVal → Except Unit (Dict PyVal)

/-- `TracerPythonScript.__init__` (tracer.py lines 95-105), with
`os.path.exists` abstracted as the `fileExists` oracle.  `script_args`
is `None`, a string (`Sum.inl`) or a list (`Sum.inr`); a string is split
with `split(" ")` and the result is kept only if truthy, exactly as
`script_args if script_args else []`. -/
def TracerPythonScript.init (fileExists : String → Bool) (script_path : String)
    (script_args : Option (String ⊕ List String))
    (outputs : Option (List String)) (env : Option (Dict String)) :
    Except PyErr TracerPythonScript :=
  if ¬ fileExists script_path then
    Except.error (PyErr.fileNotFound script_path)
  else
    let sargs : List String :=
      match script_args with
      | none => []
      | some (Sum.inl s) =>
        let l := pySplit s ' '
        if l.isEmpty then [] else l
      | some (Sum.inr l) => if l.isEmpty then [] else l
    let outs := outputs.getD []
    Except.ok
      { script_path := script_path
        script_args := sargs
        env := env
        outputs := outs
        attrs := outs.foldl (fun d n => dset d n PyVal.pyNone) [] }

/-- The loop of `on_after_run` (tracer.py lines 19-22):
`for name in self.outputs: setattr(self, name, Payload(res[name]))`.
`res[name]` raises `KeyError` when absent, leaving the attributes set so
far in place. -/
def onAfterRunLoop (res : Dict PyVal) :
    List String → Dict PyVal → Dict PyVal × Option PyErr
  | [], attrs => (attrs, none)
  | name :: rest, attrs =>
    match dget res name with
    | none => (attrs, some (PyErr.keyError name))
    | some v => onAfterRunLoop res rest (dset attrs name (PyVal.payload v))

/-- `TracerPythonScript.on_after_run` (tracer.py lines 19-22). -/
def TracerPythonScript.on_after_run (self : TracerPythonScript)
    (res : Dict PyVal) : TracerPythonScript × Option PyErr :=
  let r := onAfterRunLoop res self.outputs self.attrs
  ({ self with attrs := r.1 }, r.2)

/-- The execution context handed to the tracer (tracer.py lines 108-110):
unwrap every `Payload` keyword value, then write the keyword arguments into
the module globals dict (`init_globals = globals(); init_globals.update(kwargs)`). -/
def buildContext (g : Dict PyVal) (kwargs : Dict PyVal) : Dict PyVal :=
  dupdate g (kwargs.map (fun kv => (kv.1, unwrapPayload kv.2)))

/-- `if self.env: os.environ.update(self.env)` (tracer.py lines 113-114);
`None` and the empty dict are falsy. -/
def applyEnvOverrides (environ : Dict String) (env : Option (Dict String)) :
    Dict String :=
  match env with
  | none => environ
  | some e => if e.isEmpty then environ else dupdate environ e

/-- Observable steps of one `run` call, used to state ordering properties. -/
inductive RunEvent : Type where
  | buildContextStep : RunEvent
  | beforeRunHook : RunEvent
  | envApply : RunEvent
  | traceCall : RunEvent
  | envRestore : RunEvent
  | afterRunHook : RunEvent
  deriving DecidableEq, Repr

/-- Outcome of one `run` call: the raised exception if any, the component
state, and the process state. -/
structure RunResult : Type where
  err : Option PyErr
  comp : TracerPythonScript
  proc : ProcState
  deriving DecidableEq, Repr

/-- `TracerPythonScript.run` (tracer.py lines 107-117), instrumented with
the list of steps it performs in order.  Line by line: unwrap `Payload`
keyword values (108); `init_globals = globals()` aliases the module
globals, so `init_globals.update(kwargs)` mutates them in place (109-110);
`self.on_before_run()` — a no-op by default (111); `env_copy =
os.environ.copy()` (112); `if self.env: os.environ.update(self.env)`
(113-114); `_run_tracer` sets `sys.argv = [self.script_path]` and delegates
to the engine (115, 119-122); on normal return `os.environ = env_copy`
(116) and `self.on_after_run(res)` (117); an engine exception propagates,
skipping the restore and the after-run hook. -/
def TracerPythonScript.runT (tracer : TraceEngine) (self : TracerPythonScript)
    (proc : ProcState) (kwargs : Dict PyVal) : RunResult × List RunEvent :=
  let init_globals := buildContext proc.module_globals kwargs
  let proc1 : ProcState := { proc with module_globals := init_globals }
  let env_copy := proc1.environ
  let envTruthy : Bool :=
    match self.env with
    | none => false
    | some e => ¬ e.isEmpty
  let proc2 : ProcState := { proc1 with
    environ := applyEnvOverrides proc1.environ self.env }
  let proc3 : ProcState := { proc2 with sys_argv := [self.script_path] }
  let evts :=
    [RunEvent.buildContextStep, RunEvent.beforeRunHook] ++
      (if envTruthy then [RunEvent.envApply] else []) ++ [RunEvent.traceCall]
  match tracer self.script_path self.script_args init_globals with
  | Except.error _ =>
    ({ err := some PyErr.tracerError, comp := self, proc := proc3 }, evts)
  | Except.ok res =>
    let proc4 : ProcState := { proc3 with environ := env_copy }
    let r := self.on_after_run res
    ({ err := r.2, comp := r.1, proc := proc4 },
      evts ++ [RunEvent.envRestore, RunEvent.afterRunHook])

/-- `TracerPythonScript.run`, forgetting the event instrumentation. -/
def TracerPythonScript.run (tracer : TraceEngine) (self : TracerPythonScript)
    (proc : ProcState) (kwargs : Dict PyVal) : RunResult :=
  (TracerPythonScript.runT tracer self proc kwargs).1

/-!
Shape lemmas for `run`, one per branch of the engine call.
-/

theorem run_eq_of_ok (tracer : TraceEngine) (self : TracerPythonScript)
    (proc : ProcState) (kwargs : Dict PyVal) (res : Dict PyVal)
    (hok : tracer self.script_path self.script_args
      (buildContext proc.module_globals kwargs) = Except.ok res) :
    TracerPythonScript.run tracer self proc kwargs =
      { err := (self.on_after_run res).2
        comp := (self.on_after_run res).1
        proc :=
          { environ := proc.environ
            module_globals := buildContext proc.module_globals kwargs
            sys_argv := [self.script_path] } } := by
  simp [TracerPythonScript.run, TracerPythonScript.runT, hok]

theorem run_eq_of_error (tracer : TraceEngine) (self : TracerPythonScript)
    (proc : ProcState) (kwargs : Dict PyVal)
    (herr : tracer self.script_path self.script_args
      (buildContext proc.module_globals kwargs) = Except.error ()) :
    TracerPythonScript.run tracer self proc kwargs =
      { err := some PyErr.tracerError
        comp := self
        proc :=
          { environ := applyEnvOverrides proc.environ self.env
            module_globals := buildContext proc.module_globals kwargs
            sys_argv := [self.script_path] } } := by
  simp [TracerPythonScript.run, TracerPythonScript.runT, herr]

theorem run_module_globals (tracer : TraceEngine) (self : TracerPythonScript)
    (proc : ProcState) (kwargs : Dict PyVal) :
    (TracerPythonScript.run tracer self proc kwargs).proc.module_globals =
      buildContext proc.module_globals kwargs := by
  cases hcall : tracer self.script_path self.script_args
      (buildContext proc.module_globals kwargs) with
  | error u => cases u; rw [run_eq_of_error tracer self proc kwargs hcall]
  | ok res => rw [run_eq_of_ok tracer self proc kwargs res hcall]

/-!
Lemmas about the `on_after_run` attribute-population loop.
-/

theorem onAfterRunLoop_preserve (res : Dict PyVal) (outs : List String)
    (attrs : Dict PyVal) (k : String) (h : k ∉ outs) :
    dget (onAfterRunLoop res outs attrs).1 k = dget attrs k := by
  induction outs generalizing attrs with
  | nil => rfl
  | cons n rest ih =>
    simp only [List.mem_cons, not_or] at h
    cases hr : dget res n with
    | none => simp [onAfterRunLoop, hr]
    | some v =>
      rw [onAfterRunLoop, hr]
      simp only []
      rw [ih (dset attrs n (PyVal.payload v)) h.2,
        dget_dset_ne attrs n k (PyVal.payload v) h.1]

theorem onAfterRunLoop_get_of_ok (res : Dict PyVal) (outs : List String)
    (attrs : Dict PyVal) (hok : (onAfterRunLoop res outs attrs).2 = none)
    (name : String) (hmem : name ∈ outs) (v : PyVal)
    (hv : dget res name = some v) :
    dget (onAfterRunLoop res outs attrs).1 name =
      some (PyVal.payload v) := by
  induction outs generalizing attrs with
  | nil => cases hmem
  | cons n rest ih =>
    cases hr : dget res n with
    | none => simp [onAfterRunLoop, hr] at hok
    | some w =>
      rw [onAfterRunLoop, hr] at hok ⊢
      simp only [] at hok ⊢
      by_cases hmem' : name ∈ rest
      · exact ih (dset attrs n (PyVal.payload w)) hok hmem'
      · have hn : name = n := by
          rcases List.mem_cons.mp hmem with h | h
          · exact h
          · exact absurd h hmem'
        subst hn
        have hw : w = v := by
          rw [hr] at hv
          exact (Option.some.injEq w v ▸ hv)
        subst hw
        rw [onAfterRunLoop_preserve res rest (dset attrs name (PyVal.payload w))
          name hmem', dget_dset_self]

theorem dget_buildContext_of_mem (g kwargs : Dict PyVal) (k : String)
    (v : PyVal) (hnodup : (dkeys kwargs).Nodup) (h : dget kwargs k = some v) :
    dget (buildContext g kwargs) k = some (unwrapPayload v) := by
  unfold buildContext
  apply dget_dupdate_mem
  · rw [dkeys_map_value]
    exact hnodup
  · rw [dget_map_value, h]
    rfl

theorem dget_buildContext_of_none (g kwargs : Dict PyVal) (k : String)
    (h : dget kwargs k = none) :
    dget (buildContext g kwargs) k = dget g k := by
  unfold buildContext
  apply dget_dupdate_not_mem
  rw [dkeys_map_value]
  exact not_mem_of_dget_eq_none kwargs k h

/-- C1: for every successful invocation of `run`, every declared output
name present in the engine's result mapping is afterwards stored as an
instance attribute of that name holding a `Payload` envelope wrapping
exactly the result mapping's value for that name. -/
theorem run_success_populates_payload_outputs (tracer : TraceEngine)
    (self : TracerPythonScript) (proc : ProcState) (kwargs : Dict PyVal)
    (hnoerr : (TracerPythonScript.run tracer self proc kwargs).err = none)
    (res : Dict PyVal)
    (hok : tracer self.script_path self.script_args
      (buildContext proc.module_globals kwargs) = Except.ok res)
    (name : String) (hmem : name ∈ self.outputs) (v : PyVal)
    (hv : dget res name = some v) :
    dget (TracerPythonScript.run tracer self proc kwargs).comp.attrs name =
      some (PyVal.payload v) := by
  rw [run_eq_of_ok tracer self proc kwargs res hok] at hnoerr ⊢
  simp only [TracerPythonScript.on_after_run] at hnoerr ⊢
  exact onAfterRunLoop_get_of_ok res self.outputs self.attrs hnoerr name hmem v hv

theorem run_success_populates_payload_outputs_witness :
    dget (TracerPythonScript.run (fun _ _ _ => Except.ok [("x", PyVal.pyNat 42)])
        { script_path := "script.py", script_args := [], env := none,
          outputs := ["x"], attrs := [("x", PyVal.pyNone)] }
        { environ := [], module_globals := [], sys_argv := [] } []).comp.attrs "x" =
      some (PyVal.payload (PyVal.pyNat 42)) :=
  run_success_populates_payload_outputs _ _ _ _ (by decide) _ rfl "x" (by decide)
    (PyVal.pyNat 42) (by decide)

/-- C2 counterexample: with declared outputs `["a", "b"]` and an engine
result mapping containing only `"a"`, `run` raises (`KeyError "b"`) and yet
attribute `"a"` has already been repopulated: a failed invocation can leave
the outputs partially populated, contradicting the claim. -/
theorem run_failure_partial_population_cex :
    (TracerPythonScript.run (fun _ _ _ => Except.ok [("a", PyVal.pyNat 1)])
        { script_path := "s.py", script_args := [], env := none,
          outputs := ["a", "b"], attrs := [("a", PyVal.pyNone), ("b", PyVal.pyNone)] }
        { environ := [], module_globals := [], sys_argv := [] } []).err =
      some (PyErr.keyError "b") ∧
    dget (TracerPythonScript.run (fun _ _ _ => Except.ok [("a", PyVal.pyNat 1)])
        { script_path := "s.py", script_args := [], env := none,
          outputs := ["a", "b"], attrs := [("a", PyVal.pyNone), ("b", PyVal.pyNone)] }
        { environ := [], module_globals := [], sys_argv := [] } []).comp.attrs "a" =
      some (PyVal.payload (PyVal.pyNat 1)) ∧
    dget (TracerPythonScript.run (fun _ _ _ => Except.ok [("a", PyVal.pyNat 1)])
        { script_path := "s.py", script_args := [], env := none,
          outputs := ["a", "b"], attrs := [("a", PyVal.pyNone), ("b", PyVal.pyNone)] }
        { environ := [], module_globals := [], sys_argv := [] } []).comp.attrs "a" ≠
      dget [("a", PyVal.pyNone), ("b", PyVal.pyNone)] "a" := by
  refine ⟨by decide, by decide, by decide⟩

/-- C2 amended: when the delegated script execution itself raises (the
engine returns an exception), the exception propagates and the component
state — in particular every declared output attribute — is exactly what it
was before the call.  (When instead the after-run hook raises because a
declared output name is missing from the result mapping, the attributes
for the names processed before the missing one have already been
repopulated, so no such guarantee holds there.) -/
theorem run_engine_failure_preserves_outputs (tracer : TraceEngine)
    (self : TracerPythonScript) (proc : ProcState) (kwargs : Dict PyVal)
    (herr : tracer self.script_path self.script_args
      (buildContext proc.module_globals kwargs) = Except.error ()) :
    (TracerPythonScript.run tracer self proc kwargs).err =
      some PyErr.tracerError ∧
    (TracerPythonScript.run tracer self proc kwargs).comp = self := by
  rw [run_eq_of_error tracer self proc kwargs herr]
  exact ⟨rfl, rfl⟩

theorem run_engine_failure_preserves_outputs_witness :
    (TracerPythonScript.run (fun _ _ _ => Except.error ())
        { script_path := "s.py", script_args := [], env := none,
          outputs := ["a"], attrs := [("a", PyVal.pyNone)] }
        { environ := [], module_globals := [], sys_argv := [] } []).err =
      some PyErr.tracerError ∧
    (TracerPythonScript.run (fun _ _ _ => Except.error ())
        { script_path := "s.py", script_args := [], env := none,
          outputs := ["a"], attrs := [("a", PyVal.pyNone)] }
        { environ := [], module_globals := [], sys_argv := [] } []).comp =
      { script_path := "s.py", script_args := [], env := none,
        outputs := ["a"], attrs := [("a", PyVal.pyNone)] } :=
  run_engine_failure_preserves_outputs _ _ _ _ rfl

/-- C3: when the script path does not reference an existing file,
construction raises `FileNotFoundError` eagerly, before any invocation,
and no component instance — hence none of the declared output
attributes — is produced. -/
theorem init_missing_file_raises (fileExists : String → Bool)
    (script_path : String) (script_args : Option (String ⊕ List String))
    (outputs : Option (List String)) (env : Option (Dict String))
    (h : fileExists script_path = false) :
    TracerPythonScript.init fileExists script_path script_args outputs env =
      Except.error (PyErr.fileNotFound script_path) := by
  simp [TracerPythonScript.init, h]

theorem init_missing_file_raises_witness :
    TracerPythonScript.init (fun _ => false) "missing.py"
        (some (Sum.inl "foo")) (some ["x"]) none =
      Except.error (PyErr.fileNotFound "missing.py") :=
  init_missing_file_raises (fun _ => false) "missing.py"
    (some (Sum.inl "foo")) (some ["x"]) none rfl

/-- C4: for every invocation of `run` that returns normally, the process
environment equals the pre-call snapshot: every variable present before
the call and not among the configured overrides keeps its value, and
override keys absent before the call are absent afterward. -/
theorem run_success_restores_environ (tracer : TraceEngine)
    (self : TracerPythonScript) (proc : ProcState) (kwargs : Dict PyVal)
    (hnoerr : (TracerPythonScript.run tracer self proc kwargs).err = none) :
    (∀ k v, dget proc.environ k = some v →
      (∀ e, self.env = some e → dget e k = none) →
      dget (TracerPythonScript.run tracer self proc kwargs).proc.environ k =
        some v) ∧
    (∀ e k, self.env = some e → k ∈ dkeys e → dget proc.environ k = none →
      dget (TracerPythonScript.run tracer self proc kwargs).proc.environ k =
        none) := by
  have henv : (TracerPythonScript.run tracer self proc kwargs).proc.environ =
      proc.environ := by
    cases hcall : tracer self.script_path self.script_args
        (buildContext proc.module_globals kwargs) with
    | error u =>
      cases u
      rw [run_eq_of_error tracer self proc kwargs hcall] at hnoerr
      cases hnoerr
    | ok res => rw [run_eq_of_ok tracer self proc kwargs res hcall]
  exact ⟨fun k v hk _ => henv ▸ hk, fun e k _ _ hnone => henv ▸ hnone⟩

theorem run_success_restores_environ_witness :
    dget (TracerPythonScript.run (fun _ _ _ => Except.ok [])
        { script_path := "s.py", script_args := [], env := some [("K", "V")],
          outputs := [], attrs := [] }
        { environ := [("A", "1")], module_globals := [], sys_argv := [] }
        []).proc.environ "A" = some "1" ∧
    dget (TracerPythonScript.run (fun _ _ _ => Except.ok [])
        { script_path := "s.py", script_args := [], env := some [("K", "V")],
          outputs := [], attrs := [] }
        { environ := [("A", "1")], module_globals := [], sys_argv := [] }
        []).proc.environ "K" = none :=
  ⟨(run_success_restores_environ _ _ _ _ (by decide)).1 "A" "1" (by decide)
      (fun e he => by cases he; decide),
    (run_success_restores_environ _ _ _ _ (by decide)).2 [("K", "V")] "K" rfl
      (by decide) (by decide)⟩

/-- C5: when the delegated script execution raises, the environment is not
restored: every configured override key still holds its override value in
the process environment after the exception propagates. -/
theorem run_engine_failure_leaves_env_overrides (tracer : TraceEngine)
    (self : TracerPythonScript) (proc : ProcState) (kwargs : Dict PyVal)
    (e : Dict String) (henv : self.env = some e)
    (hnodup : (dkeys e).Nodup)
    (herr : tracer self.script_path self.script_args
      (buildContext proc.module_globals kwargs) = Except.error ())
    (k v : String) (hk : dget e k = some v) :
    dget (TracerPythonScript.run tracer self proc kwargs).proc.environ k =
      some v := by
  rw [run_eq_of_error tracer self proc kwargs herr]
  simp only [applyEnvOverrides, henv]
  rcases e with _ | ⟨⟨k0, v0⟩, rest⟩
  · cases hk
  · simpa using dget_dupdate_mem proc.environ ((k0, v0) :: rest) k v hnodup hk

theorem run_engine_failure_leaves_env_overrides_witness :
    dget (TracerPythonScript.run (fun _ _ _ => Except.error ())
        { script_path := "s.py", script_args := [], env := some [("K", "V")],
          outputs := [], attrs := [] }
        { environ := [("K", "old")], module_globals := [], sys_argv := [] }
        []).proc.environ "K" = some "V" :=
  run_engine_failure_leaves_env_overrides _ _ _ _ [("K", "V")] rfl
    (by decide) rfl "K" "V" (by decide)

/-- C6: every keyword-argument value that is a `Payload` envelope is
replaced by its underlying wrapped value before being merged into the
execution context, every non-envelope value is merged unchanged, and for
such a key the execution context never holds the envelope that was
passed.  The first conjunct records that the context `run` hands to the
engine (and writes into the module globals) is exactly `buildContext`. -/
theorem run_unwraps_payload_kwargs (tracer : TraceEngine)
    (self : TracerPythonScript) (proc : ProcState) (kwargs : Dict PyVal)
    (hnodup : (dkeys kwargs).Nodup) (k : String) (v : PyVal)
    (hget : dget kwargs k = some v) :
    (TracerPythonScript.run tracer self proc kwargs).proc.module_globals =
      buildContext proc.module_globals kwargs ∧
    dget (buildContext proc.module_globals kwargs) k =
      some (unwrapPayload v) ∧
    (∀ u, v = PyVal.payload u →
      dget (buildContext proc.module_globals kwargs) k = some u ∧
      dget (buildContext proc.module_globals kwargs) k ≠ some v) := by
  refine ⟨run_module_globals tracer self proc kwargs, ?_, ?_⟩
  · exact dget_buildContext_of_mem proc.module_globals kwargs k v hnodup hget
  · intro u hu
    subst hu
    have hctx := dget_buildContext_of_mem proc.module_globals kwargs k
      (PyVal.payload u) hnodup hget
    rw [unwrapPayload_payload] at hctx
    refine ⟨hctx, ?_⟩
    rw [hctx]
    intro hcontra
    exact payload_ne_self u (Option.some_injective PyVal hcontra).symm

theorem run_unwraps_payload_kwargs_witness :
    dget (buildContext [] [("k", PyVal.payload (PyVal.pyNat 7))]) "k" =
      some (PyVal.pyNat 7) ∧
    dget (buildContext [] [("k", PyVal.payload (PyVal.pyNat 7))]) "k" ≠
      some (PyVal.payload (PyVal.pyNat 7)) :=
  (run_unwraps_payload_kwargs (fun _ _ _ => Except.ok [])
      { script_path := "s.py", script_args := [], env := none, outputs := [],
        attrs := [] }
      { environ := [], module_globals := [], sys_argv := [] }
      [("k", PyVal.payload (PyVal.pyNat 7))] (by decide) "k"
      (PyVal.payload (PyVal.pyNat 7)) (by decide)).2.2 (PyVal.pyNat 7) rfl

/-- C7 counterexample: on a concrete invocation, the before-run hook is
not invoked before the execution context is built — the context-building
step strictly precedes the hook in the sequence of steps `run` performs,
so the hook's index is not smaller. -/
theorem run_hook_before_context_cex :
    ¬ ((TracerPythonScript.runT (fun _ _ _ => Except.ok [])
        { script_path := "s.py", script_args := [], env := none,
          outputs := [], attrs := [] }
        { environ := [], module_globals := [], sys_argv := [] } []).2.indexOf
          RunEvent.beforeRunHook <
      (TracerPythonScript.runT (fun _ _ _ => Except.ok [])
        { script_path := "s.py", script_args := [], env := none,
          outputs := [], attrs := [] }
        { environ := [], module_globals := [], sys_argv := [] } []).2.indexOf
          RunEvent.buildContextStep) := by decide

/-- C7 amended: in every invocation of `run`, the execution context is
built first and the before-run hook is called immediately after it — and
in particular before the delegation to the execution engine (the spec's
step 1 and step 2 happen in the opposite order in the code). -/
theorem run_builds_context_then_calls_hook (tracer : TraceEngine)
    (self : TracerPythonScript) (proc : ProcState) (kwargs : Dict PyVal) :
    (TracerPythonScript.runT tracer self proc kwargs).2.take 2 =
      [RunEvent.buildContextStep, RunEvent.beforeRunHook] ∧
    RunEvent.traceCall ∈
      (TracerPythonScript.runT tracer self proc kwargs).2.drop 2 := by
  cases hcall : tracer self.script_path self.script_args
      (buildContext proc.module_globals kwargs) with
  | error u =>
    cases u
    simp only [TracerPythonScript.runT, hcall]
    constructor
    · simp
    · simp
  | ok res =>
    simp only [TracerPythonScript.runT, hcall]
    constructor
    · simp
    · simp

/-- C8 counterexample: `__init__` splits a string `script_args` with
`split(" ")`, not on general whitespace: for `"a\tb"` the stored arguments
are `["a\tb"]`, while whitespace tokenisation gives `["a", "b"]`; and the
empty string is stored as `[""]`, not as the empty sequence. -/
theorem init_script_args_whitespace_cex :
    (TracerPythonScript.init (fun _ => true) "s.py" (some (Sum.inl "a\tb"))
        none none =
      Except.ok
        { script_path := "s.py", script_args := ["a\tb"], env := none,
          outputs := [], attrs := [] }) ∧
    specWhitespaceTokens "a\tb" = ["a", "b"] ∧
    (["a\tb"] ≠ ["a", "b"]) ∧
    (TracerPythonScript.init (fun _ => true) "s.py" (some (Sum.inl ""))
        none none =
      Except.ok
        { script_path := "s.py", script_args := [""], env := none,
          outputs := [], attrs := [] }) ∧
    (([""] : List String) ≠ []) := by
  refine ⟨rfl, by decide, by decide, rfl, by decide⟩

/-- C8 amended: a string `script_args` is stored as the tokens obtained by
splitting on the single space character (consecutive spaces yield empty
tokens, other whitespace is not a delimiter, and the empty string yields
the singleton `[""]`); an already-tokenized nonempty sequence is stored
as-is; an absent value or an empty sequence yields the empty sequence. -/
theorem init_script_args_stored (fileExists : String → Bool)
    (script_path : String) (script_args : Option (String ⊕ List String))
    (outputs : Option (List String)) (env : Option (Dict String))
    (t : TracerPythonScript)
    (h : TracerPythonScript.init fileExists script_path script_args outputs
      env = Except.ok t) :
    t.script_args =
      match script_args with
      | none => []
      | some (Sum.inl s) => pySplit s ' '
      | some (Sum.inr l) => if l.isEmpty then [] else l := by
  by_cases hf : fileExists script_path
  · simp only [TracerPythonScript.init, hf, not_true_eq_false, if_false,
      Except.ok.injEq] at h
    subst h
    rcases script_args with _ | s | l
    · rfl
    · show (if (pySplit s ' ').isEmpty then [] else pySplit s ' ') =
        pySplit s ' '
      cases hsplit : pySplit s ' ' with
      | nil => exact absurd hsplit (pySplit_ne_nil s ' ')
      | cons a rest => rfl
    · rfl
  · simp [TracerPythonScript.init, hf] at h

theorem init_script_args_stored_witness :
    ({ script_path := "s.py", script_args := ["x", "", "y"], env := none,
        outputs := [], attrs := [] } : TracerPythonScript).script_args =
      pySplit "x  y" ' ' :=
  init_script_args_stored (fun _ => true) "s.py" (some (Sum.inl "x  y"))
    none none _ rfl

/-- C9: `run` writes the (unwrapped) keyword arguments into the module
globals dict in place, so the binding survives the call in the process
state and is part of the execution context of a subsequent invocation even
when that invocation does not re-supply it. -/
theorem run_mutates_module_globals_persistently (tracer tracer2 : TraceEngine)
    (self self2 : TracerPythonScript) (proc : ProcState)
    (kwargs kwargs2 : Dict PyVal) (hnodup : (dkeys kwargs).Nodup)
    (k : String) (v : PyVal) (hk : dget kwargs k = some v)
    (hk2 : dget kwargs2 k = none) :
    (TracerPythonScript.run tracer self proc kwargs).proc.module_globals =
      buildContext proc.module_globals kwargs ∧
    dget (TracerPythonScript.run tracer2 self2
        (TracerPythonScript.run tracer self proc kwargs).proc
        kwargs2).proc.module_globals k = some (unwrapPayload v) := by
  refine ⟨run_module_globals tracer self proc kwargs, ?_⟩
  rw [run_module_globals tracer2 self2
    (TracerPythonScript.run tracer self proc kwargs).proc kwargs2,
    dget_buildContext_of_none _ kwargs2 k hk2,
    run_module_globals tracer self proc kwargs]
  exact dget_buildContext_of_mem proc.module_globals kwargs k v hnodup hk

theorem run_mutates_module_globals_persistently_witness :
    dget (TracerPythonScript.run (fun _ _ _ => Except.ok [])
        { script_path := "t.py", script_args := [], env := none,
          outputs := [], attrs := [] }
        (TracerPythonScript.run (fun _ _ _ => Except.ok [])
          { script_path := "s.py", script_args := [], env := none,
            outputs := [], attrs := [] }
          { environ := [], module_globals := [], sys_argv := [] }
          [("k", PyVal.pyNat 5)]).proc
        []).proc.module_globals "k" = some (PyVal.pyNat 5) :=
  (run_mutates_module_globals_persistently _ _ _ _ _ _ _ (by decide) "k"
    (PyVal.pyNat 5) (by decide) (by decide)).2

/-!
The `RunIf` test decorator (tests/tests_pytorch/helpers/runif.py).

`RunIf.__new__` scans its requirement flags in a fixed order, appending to
parallel `conditions`/`reasons` lists one entry per requested flag, and
returns `pytest.mark.skipif` with `condition=any(conditions)`.  The
environment probes (`torch.cuda.device_count()`, the `_X_AVAILABLE`
constants, `os.getenv`, `sys.platform`, ...) are external collaborators and
are abstracted into a `TestEnv` record; version values compared with
`packaging.version.Version` are abstracted as naturals with their linear
order. -/
structure TestEnv : Type where
  cuda_device_count : Nat
  torch_version : Nat
  py_version : Nat
  torch_quantize_available : Bool
  fbgemm_supported : Bool
  apex_available : Bool
  cuda_available : Bool
  torch_greater_equal_1_10 : Bool
  bf16_supported : Bool
  platform : String
  tpu_available : Bool
  ipu_env_flag : String
  ipu_available : Bool
  hpu_available : Bool
  mps_available : Bool
  horovod_available : Bool
  horovod_nccl_available : Bool
  standalone_env_flag : String
  fairscale_available : Bool
  fairscale_fully_sharded_available : Bool
  deepspeed_available : Bool
  rich_available : Bool
  omegaconf_available : Bool
  slow_env_flag : String
  bagua_available : Bool
  psutil_available : Bool
  hivemind_available : Bool
  deriving DecidableEq, Repr

/-- The keyword parameters of `RunIf.__new__` (runif.py lines 65-92), with
their Python defaults (`0`, `None`, `False`). -/
structure RunIfArgs : Type where
  min_cuda_gpus : Nat
  min_torch : Option Nat
  max_torch : Option Nat
  min_python : Option Nat
  quantization : Bool
  amp_apex : Bool
  bf16_cuda : Bool
  tpu : Bool
  ipu : Bool
  hpu : Bool
  mps : Option Bool
  horovod : Bool
  horovod_nccl : Bool
  skip_windows : Bool
  standalone : Bool
  fairscale : Bool
  fairscale_fully_sharded : Bool
  deepspeed : Bool
  rich : Bool
  omegaconf : Bool
  slow : Bool
  bagua : Bool
  psutil : Bool
  hivemind : Bool
  deriving DecidableEq, Repr

/-- All parameters left at their defaults: no requirement flag requested. -/
def RunIfArgs.noFlags : RunIfArgs :=
  { min_cuda_gpus := 0, min_torch := none, max_torch := none,
    min_python := none, quantization := false, amp_apex := false,
    bf16_cuda := false, tpu := false, ipu := false, hpu := false,
    mps := none, horovod := false, horovod_nccl := false,
    skip_windows := false, standalone := false, fairscale := false,
    fairscale_fully_sharded := false, deepspeed := false, rich := false,
    omegaconf := false, slow := false, bagua := false, psutil := false,
    hivemind := false }

/-- The parallel `conditions`/`reasons` lists built by `RunIf.__new__`
(runif.py lines 124-247), as a single list of pairs so that the
`zip(conditions, reasons)` on line 249 is by construction aligned.  Blocks
appear in source order; each block appends one entry when its flag is
requested (truthiness: a nonzero `min_cuda_gpus`, a non-`None` version
string, a `True` boolean, a non-`None` `mps`). -/
def RunIf.checks (env : TestEnv) (a : RunIfArgs) : List (Bool × String) :=
  (if a.min_cuda_gpus ≠ 0 then
    [(decide (env.cuda_device_count < a.min_cuda_gpus),
      "GPUs>=" ++ toString a.min_cuda_gpus)] else []) ++
  (match a.min_torch with
    | none => []
    | some m => [(decide (env.torch_version < m), "torch>=" ++ toString m)]) ++
  (match a.max_torch with
    | none => []
    | some m => [(decide (m ≤ env.torch_version), "torch<" ++ toString m)]) ++
  (match a.min_python with
    | none => []
    | some m => [(decide (env.py_version < m), "python>=" ++ toString m)]) ++
  (if a.quantization then
    [((!env.torch_quantize_available || !env.fbgemm_supported),
      "PyTorch quantization")] else []) ++
  (if a.amp_apex then [(!env.apex_available, "NVIDIA Apex")] else []) ++
  (if a.bf16_cuda then
    [((!(env.cuda_available && env.torch_greater_equal_1_10 &&
        env.bf16_supported)), "CUDA device bf16")] else []) ++
  (if a.skip_windows then
    [((env.platform == "win32"), "unimplemented on Windows")] else []) ++
  (if a.tpu then [(!env.tpu_available, "TPU")] else []) ++
  (if a.ipu then
    [((env.ipu_env_flag != "1" || !env.ipu_available), "IPU")] else []) ++
  (if a.hpu then [(!env.hpu_available, "HPU")] else []) ++
  (match a.mps with
    | none => []
    | some true => [(!env.mps_available, "MPS")]
    | some false => [(env.mps_available, "not MPS")]) ++
  (if a.horovod then [(!env.horovod_available, "Horovod")] else []) ++
  (if a.horovod_nccl then
    [(!env.horovod_nccl_available, "Horovod with NCCL")] else []) ++
  (if a.standalone then
    [((env.standalone_env_flag != "1"), "Standalone execution")] else []) ++
  (if a.fairscale then [(!env.fairscale_available, "Fairscale")] else []) ++
  (if a.fairscale_fully_sharded then
    [(!env.fairscale_fully_sharded_available, "Fairscale Fully Sharded")]
    else []) ++
  (if a.deepspeed then [(!env.deepspeed_available, "Deepspeed")] else []) ++
  (if a.rich then [(!env.rich_available, "Rich")] else []) ++
  (if a.omegaconf then [(!env.omegaconf_available, "omegaconf")] else []) ++
  (if a.slow then [((env.slow_env_flag != "1"), "Slow test")] else []) ++
  (if a.bagua then
    [((!env.bagua_available || env.platform == "win32" ||
        env.platform == "darwin"), "Bagua")] else []) ++
  (if a.psutil then [(!env.psutil_available, "psutil")] else []) ++
  (if a.hivemind then
    [((!env.hivemind_available || env.platform == "win32" ||
        env.platform == "darwin"), "Hivemind")] else [])

/-- The skip marker produced by `pytest.mark.skipif(...)`: its `condition`
and `reason` keyword arguments as built on runif.py lines 249-252. -/
structure SkipMarker : Type where
  condition : Bool
  reason : String
  deriving DecidableEq, Repr

/-- `RunIf.__new__` (runif.py lines 65-252): `condition=any(conditions)`,
`reason="Requires: [...]"` joining the reasons whose condition holds. -/
def RunIf.mark (env : TestEnv) (a : RunIfArgs) : SkipMarker :=
  let checks := RunIf.checks env a
  { condition := (checks.map Prod.fst).any id
    reason := "Requires: [" ++
      String.intercalate " + "
        ((checks.filter (fun c => c.1)).map Prod.snd) ++ "]" }

/-- The claim's reading of the skip condition: a disjunction with one
disjunct per requested flag, each stating that the flag's requirement is
unmet, in block order. -/
def RunIfSkipSpec (env : TestEnv) (a : RunIfArgs) : Prop :=
  (a.min_cuda_gpus ≠ 0 ∧ env.cuda_device_count < a.min_cuda_gpus) ∨
  (∃ m, a.min_torch = some m ∧ env.torch_version < m) ∨
  (∃ m, a.max_torch = some m ∧ m ≤ env.torch_version) ∨
  (∃ m, a.min_python = some m ∧ env.py_version < m) ∨
  (a.quantization = true ∧
    (env.torch_quantize_available = false ∨ env.fbgemm_supported = false)) ∨
  (a.amp_apex = true ∧ env.apex_available = false) ∨
  (a.bf16_cuda = true ∧
    (env.cuda_available = false ∨ env.torch_greater_equal_1_10 = false ∨
      env.bf16_supported = false)) ∨
  (a.skip_windows = true ∧ env.platform = "win32") ∨
  (a.tpu = true ∧ env.tpu_available = false) ∨
  (a.ipu = true ∧ (env.ipu_env_flag ≠ "1" ∨ env.ipu_available = false)) ∨
  (a.hpu = true ∧ env.hpu_available = false) ∨
  (a.mps = some true ∧ env.mps_available = false) ∨
  (a.mps = some false ∧ env.mps_available = true) ∨
  (a.horovod = true ∧ env.horovod_available = false) ∨
  (a.horovod_nccl = true ∧ env.horovod_nccl_available = false) ∨
  (a.standalone = true ∧ env.standalone_env_flag ≠ "1") ∨
  (a.fairscale = true ∧ env.fairscale_available = false) ∨
  (a.fairscale_fully_sharded = true ∧
    env.fairscale_fully_sharded_available = false) ∨
  (a.deepspeed = true ∧ env.deepspeed_available = false) ∨
  (a.rich = true ∧ env.rich_available = false) ∨
  (a.omegaconf = true ∧ env.omegaconf_available = false) ∨
  (a.slow = true ∧ env.slow_env_flag ≠ "1") ∨
  (a.bagua = true ∧
    (env.bagua_available = false ∨ env.platform = "win32" ∨
      env.platform = "darwin")) ∨
  (a.psutil = true ∧ env.psutil_available = false) ∨
  (a.hivemind = true ∧
    (env.hivemind_available = false ∨ env.platform = "win32" ∨
      env.platform = "darwin"))

theorem any_map_fst_if (c : Prop) [Decidable c] (b : Bool) (s : String) :
    ((((if c then [(b, s)] else []) : List (Bool × String)).map
      Prod.fst).any id) = (decide c && b) := by
  by_cases h : c <;> simp [h]

set_option maxHeartbeats 2000000 in
/-- C10: the produced skip marker's condition is the disjunction of the
individual conditions contributed by the requested flags — the test is
skipped iff at least one requested requirement is unmet — and with no
flags requested the condition is `false`. -/
theorem runif_condition_is_flag_disjunction (env : TestEnv) (a : RunIfArgs) :
    ((RunIf.mark env a).condition = true ↔ RunIfSkipSpec env a) ∧
    (RunIf.mark env RunIfArgs.noFlags).condition = false := by
  constructor
  · rcases hmt : a.min_torch with _ | mt <;>
      rcases hxt : a.max_torch with _ | xt <;>
      rcases hmp : a.min_python with _ | mp <;>
      rcases hmps : a.mps with _ | (_ | _) <;>
      simp [RunIf.mark, RunIf.checks, RunIfSkipSpec, any_map_fst_if,
        hmt, hxt, hmp, hmps, List.any_append, or_assoc, and_assoc]
  · simp [RunIf.mark, RunIf.checks, RunIfArgs.noFlags]

end PL
